import Mathlib

/-!
Shallow embedding of the `open-multiple-model-mcp-client` gateway core:
the per-endpoint enable/disable policy (`ServerKit`, src/src/api/server_kit.py),
the downstream registry and registration loop (`DownstreamController`,
src/src/api/downstream_controller.py), tool renaming
(`DownstreamMCPServerTool`, src/src/api/downstream_server.py), the gateway
request handlers (`Gateway.setup`, src/gateway.py), and the router
(`Composer`, src/src/api/composer.py).

Python `dict` values are modelled as ordered association lists with
Python's assignment semantics: assigning to an existing key updates the
value in place (keeping the key's position in iteration order), assigning
to a fresh key appends it at the end.  A lookup that would raise `KeyError`
is modelled as `Option`/`Except`.
-/

namespace MCPGateway

/-- Python `d[k]` read: first binding of `k`, `none` models `KeyError`. -/
def dictGet {V : Type} (d : List (String × V)) (k : String) : Option V :=
  match d with
  | [] => none
  | (a, v) :: rest => if a = k then some v else dictGet rest k

/-- Python `d[k] = v`: update in place if the key exists, else append. -/
def dictSet {V : Type} (d : List (String × V)) (k : String) (v : V) :
    List (String × V) :=
  match d with
  | [] => [(k, v)]
  | (a, w) :: rest =>
      if a = k then (a, v) :: rest else (a, w) :: dictSet rest k v

/-- Python renders `str(KeyError(k))` as the key wrapped in single quotes. -/
def pyKeyError (k : String) : String :=
  (Char.ofNat 39).toString ++ k ++ (Char.ofNat 39).toString

theorem dictGet_dictSet {V : Type} (d : List (String × V)) (k x : String)
    (v : V) :
    dictGet (dictSet d k v) x = if k = x then some v else dictGet d x := by
  induction d with
  | nil =>
      by_cases h : k = x <;> simp [dictSet, dictGet, h]
  | cons p rest ih =>
      obtain ⟨a, w⟩ := p
      simp only [dictSet]
      by_cases hak : a = k
      · subst hak
        simp only [if_pos rfl, dictGet]
        by_cases hax : a = x
        · subst hax; simp
        · simp [hax]
      · simp only [if_neg hak, dictGet]
        by_cases hax : a = x
        · subst hax
          have hkx : ¬ k = a := fun h => hak h.symm
          simp [hkx]
        · simp [hax, ih]

theorem dictSet_dictSet {V : Type} (d : List (String × V)) (k : String)
    (v w : V) : dictSet (dictSet d k v) k w = dictSet d k w := by
  induction d with
  | nil => simp [dictSet]
  | cons p rest ih =>
      obtain ⟨a, u⟩ := p
      simp only [dictSet]
      by_cases hak : a = k
      · simp [dictSet, hak]
      · simp [dictSet, hak, ih]

/-- `ServerKit` (src/src/api/server_kit.py): the per-endpoint access policy. -/
structure ServerKit where
  name : String
  enabled : Bool
  servers_enabled : List (String × Bool)
  tools_enabled : List (String × Bool)
  servers_tools_hierarchy_map : List (String × List String)
  tools_servers_map : List (String × String)
  deriving Repr, DecidableEq

namespace ServerKit

/-- `ServerKit.new_server_kit`. -/
def new_server_kit (name : String) : ServerKit :=
  { name := name
    enabled := true
    servers_enabled := []
    tools_enabled := []
    servers_tools_hierarchy_map := []
    tools_servers_map := [] }

/-- The loop body of `ServerKit.list_enabled_tool_names`, iterating over
`tools_enabled` in insertion order.  A missing key in `tools_servers_map`
or `servers_enabled` raises `KeyError` in Python, modelled as `.error`. -/
def listEnabledAux (tsm : List (String × String))
    (sen : List (String × Bool)) :
    List (String × Bool) → Except String (List String)
  | [] => Except.ok []
  | (t, en) :: rest =>
      match dictGet tsm t with
      | none => Except.error (pyKeyError t)
      | some s =>
          match dictGet sen s with
          | none => Except.error (pyKeyError s)
          | some sEn =>
              if !sEn then listEnabledAux tsm sen rest
              else if !en then listEnabledAux tsm sen rest
              else (listEnabledAux tsm sen rest).map (fun l => t :: l)

/-- `ServerKit.list_enabled_tool_names`.  Note: the Python body never
consults the kit-level `enabled` flag. -/
def list_enabled_tool_names (k : ServerKit) : Except String (List String) :=
  listEnabledAux k.tools_servers_map k.servers_enabled k.tools_enabled

/-- `ServerKit.disable_kit`. -/
def disable_kit (k : ServerKit) : ServerKit := { k with enabled := false }

/-- `ServerKit.enable_kit`. -/
def enable_kit (k : ServerKit) : ServerKit := { k with enabled := true }

/-- `ServerKit.disable_server`. -/
def disable_server (k : ServerKit) (server_name : String) : ServerKit :=
  { k with servers_enabled := dictSet k.servers_enabled server_name false }

/-- `ServerKit.enable_server`. -/
def enable_server (k : ServerKit) (server_name : String) : ServerKit :=
  { k with servers_enabled := dictSet k.servers_enabled server_name true }

/-- `ServerKit.disable_tool`. -/
def disable_tool (k : ServerKit) (tool_name : String) : ServerKit :=
  { k with tools_enabled := dictSet k.tools_enabled tool_name false }

/-- `ServerKit.enable_tool`. -/
def enable_tool (k : ServerKit) (tool_name : String) : ServerKit :=
  { k with tools_enabled := dictSet k.tools_enabled tool_name true }

end ServerKit

/-- `DownstreamMCPServerTool.__init__` (src/src/api/downstream_server.py):
the composite control name `f"{server_control_name}-{tool.name}"`. -/
def controlName (server_control_name tool_name : String) : String :=
  server_control_name ++ "-" ++ tool_name

/-- `ConnectionType` (src/src/api/downstream_server.py). -/
inductive ConnectionType where
  | stdio
  | sse
  deriving Repr, DecidableEq

/-- Python truthiness of an optional string: `None` and `""` are falsy. -/
def truthy (o : Option String) : Bool :=
  match o with
  | none => false
  | some s => !s.isEmpty

/-- `DownstreamMCPServerConfig`, reduced to the fields
`get_connection_type` reads (`args`/`env` play no role there). -/
structure DownstreamMCPServerConfig where
  name : String
  command : Option String
  url : Option String
  deriving Repr, DecidableEq

/-- `DownstreamMCPServerConfig.get_connection_type`: `if self.command`,
`if self.url`, else `raise ValueError("Invalid server config")`. -/
def get_connection_type (c : DownstreamMCPServerConfig) :
    Except String ConnectionType :=
  if truthy c.command then Except.ok ConnectionType.stdio
  else if truthy c.url then Except.ok ConnectionType.sse
  else Except.error "Invalid server config"

/-- Outcome of the network interactions for one backend config: whether
`DownstreamMCPServer.initialize` completes, and if so what
`session.list_tools()` yields (the backend tools original names, or the
exception it raises). -/
structure BackendBehavior where
  name : String
  connectOk : Bool
  toolsResult : Except String (List String)
  deriving Repr

/-- The mutable maps of `DownstreamController`: `_servers_map` (control
name ↦ registered server, recorded here as a session-present flag),
`_tools_map` (tool control name ↦ owning server control name), and
`_all_servers_tools` in append order. -/
structure Registry where
  servers_map : List (String × Bool)
  tools_map : List (String × String)
  all_servers_tools : List (String × List String)
  deriving Repr, DecidableEq

def emptyRegistry : Registry :=
  { servers_map := [], tools_map := [], all_servers_tools := [] }

/-- `DownstreamController.register_downstream_mcp_server`, the network
abstracted by `BackendBehavior`.  It mirrors the statement order of the
Python body: `server.initialize` (may raise), assignment into
`_servers_map`, `server.list_tools()` (may raise), append to
`_all_servers_tools`, one `_tools_map` assignment per tool.  The result is
the registry as left by the call, paired with the exception it raises, if
any — there is no handler in the Python body. -/
def register_downstream_mcp_server (reg : Registry) (b : BackendBehavior) :
    Registry × Option String :=
  if !b.connectOk then (reg, some "ConnectionError")
  else
    let reg1 : Registry :=
      { reg with servers_map := dictSet reg.servers_map b.name true }
    match b.toolsResult with
    | Except.error e => (reg1, some e)
    | Except.ok ts =>
        let ctls := ts.map (fun t => controlName b.name t)
        ({ reg1 with
            all_servers_tools := reg1.all_servers_tools ++ [(b.name, ctls)]
            tools_map :=
              ctls.foldl (fun m ct => dictSet m ct b.name) reg1.tools_map },
          none)

/-- The loop of `DownstreamController.initialize`: register each config in
order.  The loop body has no handler, so the first exception aborts the
loop and propagates to the caller. -/
def initAll (reg : Registry) :
    List BackendBehavior → Registry × Option String
  | [] => (reg, none)
  | b :: rest =>
      match register_downstream_mcp_server reg b with
      | (reg1, some e) => (reg1, some e)
      | (reg1, none) => initAll reg1 rest

/-- One registered tool as the gateway sees it through
`DownstreamController.get_tool_by_control_name`. -/
structure ToolRec where
  server_control_name : String
  origName : String
  description : String
  deriving Repr, DecidableEq

/-- `mcp.types.Tool`, reduced to name and description. -/
structure ToolM where
  name : String
  description : String
  deriving Repr, DecidableEq

/-- `DownstreamMCPServerTool.to_new_name_tool`: the tool renamed to its
composite control name. -/
def to_new_name_tool (tr : ToolRec) : ToolM :=
  { name := controlName tr.server_control_name tr.origName
    description := tr.description }

/-- `mcp.types.CallToolResult`, reduced to the fields the gateway handler
constructs and inspects (each `TextContent` kept as its text). -/
structure CallToolResultM where
  content : List String
  isError : Bool
  deriving Repr, DecidableEq

/-- `mcp.types.CallToolRequest` parameters. -/
structure CallToolRequestM where
  name : String
  arguments : List (String × String)
  deriving Repr, DecidableEq

/-- The state read by the closures installed by `Gateway.setup`: the bound
kit, the controller maps, and the behavior of `session.call_tool` on each
live backend session (a raised exception modelled as `.error`). -/
structure GatewayEnv where
  kit : ServerKit
  tools_map : List (String × ToolRec)
  servers_map : List (String × Bool)
  backend :
    String → String → List (String × String) → Except String CallToolResultM

/-- The `try` block of `_call_tool` in `Gateway.setup`: each `raise` and
each `KeyError` from a dict access becomes `.error` with the text `str(e)`
would produce. -/
def callToolBody (env : GatewayEnv) (req : CallToolRequestM) :
    Except String CallToolResultM :=
  if !env.kit.enabled then Except.error "Server kit is not enabled"
  else
    match dictGet env.kit.tools_enabled req.name with
    | none => Except.error (pyKeyError req.name)
    | some en =>
        if !en then Except.error "Tool is not enabled"
        else
          match dictGet env.tools_map req.name with
          | none => Except.error (pyKeyError req.name)
          | some tr =>
              match dictGet env.servers_map tr.server_control_name with
              | none => Except.error (pyKeyError tr.server_control_name)
              | some sessionLive =>
                  if !sessionLive then
                    Except.error "Server session is not initialized"
                  else env.backend tr.server_control_name tr.origName
                    req.arguments

/-- The error result `_call_tool` builds in its `except` clause. -/
def errorResult (e : String) : CallToolResultM :=
  { content := [e], isError := true }

/-- `_call_tool` in `Gateway.setup`: the `try` body with its
`except Exception` clause, which converts any exception into a
`CallToolResult` with `isError=True`. -/
def callToolHandler (env : GatewayEnv) (req : CallToolRequestM) :
    CallToolResultM :=
  match callToolBody env req with
  | Except.ok r => r
  | Except.error e => errorResult e

/-- The loop of `_list_tools` resolving each enabled name through
`get_tool_by_control_name` (a `KeyError` there is uncaught). -/
def resolveTools (tm : List (String × ToolRec)) :
    List String → Except String (List ToolM)
  | [] => Except.ok []
  | n :: rest =>
      match dictGet tm n with
      | none => Except.error (pyKeyError n)
      | some tr => (resolveTools tm rest).map (fun l => to_new_name_tool tr :: l)

/-- `_list_tools` in `Gateway.setup`: empty result when the kit is
disabled, otherwise the enabled names resolved and renamed. -/
def listToolsHandler (env : GatewayEnv) : Except String (List ToolM) :=
  if !env.kit.enabled then Except.ok []
  else
    match ServerKit.list_enabled_tool_names env.kit with
    | Except.error e => Except.error e
    | Except.ok names => resolveTools env.tools_map names

/-- Python `del d[k]`: drop the binding of `k`. -/
def dictDel {V : Type} (d : List (String × V)) (k : String) :
    List (String × V) :=
  match d with
  | [] => []
  | (a, v) :: rest => if a = k then rest else (a, v) :: dictDel rest k

/-- One entry of the FastAPI `routes` list: whether it is a `Mount`, and
its path. -/
structure RouteEntry where
  mountFlag : Bool
  path : String
  deriving Repr, DecidableEq

/-- The route-removal loop of `Composer.remove_gateway`: drop the first
`Mount` route whose path matches, leave the list unchanged if none does. -/
def removeMountRoute (routes : List RouteEntry) (target : String) :
    List RouteEntry :=
  match routes with
  | [] => []
  | r :: rest =>
      if r.mountFlag = true ∧ r.path = target then rest
      else r :: removeMountRoute rest target

/-- The `Composer` state the gateway-lifecycle methods touch:
`gateway_map` (dict keyed by gateway name) and the ASGI app routes. -/
structure ComposerState where
  gateway_map : List (String × Unit)
  routes : List RouteEntry
  deriving Repr, DecidableEq

/-- `Composer.add_gateway`: reject an existing name, otherwise record the
gateway and mount its routes at `/{name}`. -/
def add_gateway (st : ComposerState) (name : String) :
    ComposerState × Option String :=
  if (dictGet st.gateway_map name).isSome then
    (st, some ("Gateway " ++ name ++ " already exists"))
  else
    ({ gateway_map := dictSet st.gateway_map name ()
       routes := st.routes ++ [{ mountFlag := true, path := "/" ++ name }] },
      none)

/-- `Composer.remove_gateway`: the last-gateway check runs first, then the
membership check, then the route and map removal. -/
def remove_gateway (st : ComposerState) (name : String) :
    ComposerState × Option String :=
  if st.gateway_map.length = 1 then
    (st, some "Cannot remove the last gateway")
  else if (dictGet st.gateway_map name).isNone then
    (st, some ("Gateway " ++ name ++ " does not exist"))
  else
    ({ gateway_map := dictDel st.gateway_map name
       routes := removeMountRoute st.routes ("/" ++ name) },
      none)

/-! ### Theorems for the claims -/

/-- C10: `get_connection_type` raises `ValueError("Invalid server config")`
exactly when neither the subprocess command nor the network URL is set (a
`None` or empty string being "not set" under Python truthiness); when both
are set, no error is raised and the stdio transport is selected, the URL
being ignored. -/
theorem c10_connection_type_resolution (c : DownstreamMCPServerConfig) :
    (get_connection_type c = Except.error "Invalid server config" ↔
      truthy c.command = false ∧ truthy c.url = false) ∧
    (truthy c.command = true → truthy c.url = true →
      get_connection_type c = Except.ok ConnectionType.stdio) := by
  constructor
  · by_cases h1 : truthy c.command <;> by_cases h2 : truthy c.url <;>
      simp [get_connection_type, h1, h2]
  · intro h1 h2
    simp [get_connection_type, h1]

theorem c10_connection_type_resolution_witness :
    get_connection_type
        { name := "b", command := some "run", url := some "u" } =
      Except.ok ConnectionType.stdio ∧
    get_connection_type { name := "b", command := none, url := none } =
      Except.error "Invalid server config" :=
  ⟨(c10_connection_type_resolution
      { name := "b", command := some "run", url := some "u" }).2
      (by decide) (by decide),
    (c10_connection_type_resolution
      { name := "b", command := none, url := none }).1.mpr
      ⟨by decide, by decide⟩⟩

/-- C5 counterexample: the separator is not reserved, so two distinct
(backend, tool) pairs can collide — backend `a-b` with tool `c` and
backend `a` with tool `b-c` both yield the composite name `a-b-c`. -/
theorem c5_counterexample :
    controlName "a-b" "c" = controlName "a" "b-c" ∧
      ("a-b" : String) ≠ "a" ∧ ("c" : String) ≠ "b-c" := by decide

/-- C5 (amended): two distinct backends exposing tools with the same
original name always receive distinct composite control names (the suffix
`-{tool}` cancels); full injectivity over arbitrary pairs fails. -/
theorem c5_composite_name_distinct_backends (b1 b2 t : String)
    (h : b1 ≠ b2) : controlName b1 t ≠ controlName b2 t := by
  intro he
  apply h
  unfold controlName at he
  have hd := congrArg String.data he
  simp only [String.data_append] at hd
  exact String.ext (List.append_cancel_right (List.append_cancel_right hd))

theorem c5_composite_name_distinct_backends_witness :
    controlName "files" "read" ≠ controlName "search" "read" :=
  c5_composite_name_distinct_backends "files" "search" "read" (by decide)

/-- The policy of the C2 failing input: kit enabled, backend `s` disabled,
tool `s-t` individually enabled. -/
def c2Kit : ServerKit :=
  { name := "kit"
    enabled := true
    servers_enabled := [("s", false)]
    tools_enabled := [("s-t", true)]
    servers_tools_hierarchy_map := [("s", ["s-t"])]
    tools_servers_map := [("s-t", "s")] }

/-- The gateway state of the C2 failing input: the backend is registered,
its session is live, and a call to it succeeds. -/
def c2Env : GatewayEnv :=
  { kit := c2Kit
    tools_map :=
      [("s-t", { server_control_name := "s", origName := "t",
                  description := "d" })]
    servers_map := [("s", true)]
    backend := fun _ _ _ =>
      Except.ok { content := ["done"], isError := false } }

/-- C2: the code at the failing input.  Tool `s-t` is not effectively
enabled (its owning backend is disabled, so `list_enabled_tool_names` is
empty), yet `_call_tool` — which checks only the kit flag and the tool
flag, never `servers_enabled` — forwards the call and returns the
backend's success result rather than an error result. -/
theorem c2_disabled_backend_call_forwarded :
    ServerKit.list_enabled_tool_names c2Kit = Except.ok [] ∧
    dictGet c2Kit.servers_enabled "s" = some false ∧
    callToolHandler c2Env { name := "s-t", arguments := [] } =
      { content := ["done"], isError := false } :=
  ⟨rfl, rfl, rfl⟩

/-- The C4 counterexample behavior: the backend connects, then
`list_tools` raises. -/
def c4Behavior : BackendBehavior :=
  { name := "A", connectOk := true, toolsResult := Except.error "boom" }

/-- C4 counterexample: when tool listing fails after a successful connect,
the server map retains the backend while no tool of it is registered —
partial registration is visible, contradicting atomicity. -/
theorem c4_counterexample :
    (register_downstream_mcp_server emptyRegistry c4Behavior).2 =
      some "boom" ∧
    dictGet (register_downstream_mcp_server emptyRegistry
        c4Behavior).1.servers_map "A" = some true ∧
    (register_downstream_mcp_server emptyRegistry c4Behavior).1.tools_map =
      [] :=
  ⟨rfl, rfl, rfl⟩

/-- C4 (amended): a connect failure leaves the registry unchanged, but a
tool-listing failure after a successful connect leaves the backend in the
server map with none of its tools — registration is atomic only up to the
server-map insertion. -/
theorem c4_registration_partial_visibility (reg : Registry)
    (b : BackendBehavior) :
    (b.connectOk = false →
      register_downstream_mcp_server reg b = (reg, some "ConnectionError")) ∧
    (∀ e, b.connectOk = true → b.toolsResult = Except.error e →
      register_downstream_mcp_server reg b =
        ({ reg with servers_map := dictSet reg.servers_map b.name true },
          some e)) := by
  constructor
  · intro h
    simp [register_downstream_mcp_server, h]
  · intro e h1 h2
    simp [register_downstream_mcp_server, h1, h2]

theorem c4_registration_partial_visibility_witness :
    register_downstream_mcp_server emptyRegistry
        { name := "A", connectOk := false, toolsResult := Except.ok [] } =
      (emptyRegistry, some "ConnectionError") ∧
    register_downstream_mcp_server emptyRegistry
        { name := "A", connectOk := true,
          toolsResult := Except.error "boom" } =
      ({ emptyRegistry with servers_map := [("A", true)] }, some "boom") :=
  ⟨(c4_registration_partial_visibility emptyRegistry
      { name := "A", connectOk := false, toolsResult := Except.ok [] }).1
      rfl,
    (c4_registration_partial_visibility emptyRegistry
      { name := "A", connectOk := true,
        toolsResult := Except.error "boom" }).2 "boom" rfl rfl⟩

theorem dictGet_dictDel_self {V : Type} (d : List (String × V)) (k : String)
    (h : (d.map Prod.fst).Nodup) : dictGet (dictDel d k) k = none := by
  induction d with
  | nil => rfl
  | cons p rest ih =>
      obtain ⟨a, v⟩ := p
      simp only [List.map_cons, List.nodup_cons] at h
      simp only [dictDel]
      by_cases hak : a = k
      · subst hak
        simp only [if_pos rfl]
        clear ih
        induction rest with
        | nil => rfl
        | cons q rest2 ih2 =>
            obtain ⟨b, w⟩ := q
            simp only [List.map_cons, List.mem_cons, List.nodup_cons] at h
            have hbk : ¬ b = a := fun hcontra => h.1 (Or.inl hcontra.symm)
            simp only [dictGet, if_neg hbk]
            exact ih2 ⟨fun hm => h.1 (Or.inr hm), h.2.2⟩
      · simp only [if_neg hak, dictGet, if_neg hak]
        exact ih h.2

/-- The C8 failing input: a composer holding exactly one gateway `a`. -/
def c8State : ComposerState :=
  { gateway_map := [("a", ())]
    routes := [{ mountFlag := true, path := "/a" }] }

/-- C8 counterexample: removing the nonexistent name `b` while exactly one
gateway is mounted yields the last-gateway error, not the not-found error
the claim requires for an absent name — the last-gateway check runs
first. -/
theorem c8_counterexample :
    dictGet c8State.gateway_map "b" = none ∧
    remove_gateway c8State "b" =
      (c8State, some "Cannot remove the last gateway") ∧
    (remove_gateway c8State "b").2 ≠ some "Gateway b does not exist" := by
  refine ⟨rfl, rfl, ?_⟩
  intro h
  simp only [remove_gateway, c8State] at h
  simp at h

/-- C8 (amended): the last-gateway check takes precedence — with exactly
one gateway mounted, removal of any name (present or not) fails with the
last-gateway error; otherwise an absent name fails with the not-found
error; both failures leave the state unchanged; removing a present,
non-last gateway succeeds, discards it from the map, and lets a gateway of
the same name be added again. -/
theorem c8_remove_gateway_checks (st : ComposerState) (name : String) :
    (st.gateway_map.length = 1 →
      remove_gateway st name = (st, some "Cannot remove the last gateway")) ∧
    (st.gateway_map.length ≠ 1 → dictGet st.gateway_map name = none →
      remove_gateway st name =
        (st, some ("Gateway " ++ name ++ " does not exist"))) ∧
    (st.gateway_map.length ≠ 1 →
      (st.gateway_map.map Prod.fst).Nodup →
      ∀ u, dictGet st.gateway_map name = some u →
      (remove_gateway st name).2 = none ∧
      dictGet (remove_gateway st name).1.gateway_map name = none ∧
      (add_gateway (remove_gateway st name).1 name).2 = none) := by
  refine ⟨?_, ?_, ?_⟩
  · intro h
    simp [remove_gateway, h]
  · intro h1 h2
    simp [remove_gateway, h1, h2]
  · intro h1 hnd u h2
    have hres : remove_gateway st name =
        ({ gateway_map := dictDel st.gateway_map name
           routes := removeMountRoute st.routes ("/" ++ name) }, none) := by
      simp [remove_gateway, h1, h2]
    rw [hres]
    have hdel : dictGet (dictDel st.gateway_map name) name = none :=
      dictGet_dictDel_self st.gateway_map name hnd
    refine ⟨rfl, hdel, ?_⟩
    simp [add_gateway, hdel]

theorem c8_remove_gateway_checks_witness :
    remove_gateway { gateway_map := [("a", ())], routes := [] } "b" =
      ({ gateway_map := [("a", ())], routes := [] },
        some "Cannot remove the last gateway") ∧
    remove_gateway
        { gateway_map := [("a", ()), ("b", ())], routes := [] } "c" =
      ({ gateway_map := [("a", ()), ("b", ())], routes := [] },
        some "Gateway c does not exist") ∧
    (remove_gateway
        { gateway_map := [("a", ()), ("b", ())], routes := [] } "b").2 =
      none ∧
    (add_gateway (remove_gateway
        { gateway_map := [("a", ()), ("b", ())], routes := [] } "b").1
        "b").2 = none :=
  ⟨(c8_remove_gateway_checks
      { gateway_map := [("a", ())], routes := [] } "b").1 rfl,
    (c8_remove_gateway_checks
      { gateway_map := [("a", ()), ("b", ())], routes := [] } "c").2.1
      (by decide) rfl,
    ((c8_remove_gateway_checks
      { gateway_map := [("a", ()), ("b", ())], routes := [] } "b").2.2
      (by decide) (by decide) () rfl).1,
    ((c8_remove_gateway_checks
      { gateway_map := [("a", ()), ("b", ())], routes := [] } "b").2.2
      (by decide) (by decide) () rfl).2.2⟩

/-- C1: every failure inside `_call_tool` — kit disabled, unknown tool
name (`KeyError` on `tools_enabled`), tool disabled, unknown tool handle,
unknown backend, uninitialized session, and any exception raised by the
forwarded backend call — is caught and returned as a `CallToolResult` with
`isError=True` carrying the failure's text; the handler never returns a
raw exception (its every error outcome is the `errorResult` conversion of
the raised exception). -/
theorem c1_call_tool_error_boundary (env : GatewayEnv)
    (req : CallToolRequestM) :
    (∀ e, callToolBody env req = Except.error e →
      callToolHandler env req = errorResult e ∧
      (callToolHandler env req).isError = true) ∧
    (env.kit.enabled = false →
      callToolHandler env req = errorResult "Server kit is not enabled") ∧
    (env.kit.enabled = true →
      dictGet env.kit.tools_enabled req.name = none →
      callToolHandler env req = errorResult (pyKeyError req.name)) ∧
    (env.kit.enabled = true →
      dictGet env.kit.tools_enabled req.name = some false →
      callToolHandler env req = errorResult "Tool is not enabled") ∧
    (env.kit.enabled = true →
      dictGet env.kit.tools_enabled req.name = some true →
      dictGet env.tools_map req.name = none →
      callToolHandler env req = errorResult (pyKeyError req.name)) ∧
    (∀ tr, env.kit.enabled = true →
      dictGet env.kit.tools_enabled req.name = some true →
      dictGet env.tools_map req.name = some tr →
      dictGet env.servers_map tr.server_control_name = none →
      callToolHandler env req =
        errorResult (pyKeyError tr.server_control_name)) ∧
    (∀ tr, env.kit.enabled = true →
      dictGet env.kit.tools_enabled req.name = some true →
      dictGet env.tools_map req.name = some tr →
      dictGet env.servers_map tr.server_control_name = some false →
      callToolHandler env req =
        errorResult "Server session is not initialized") ∧
    (∀ tr e, env.kit.enabled = true →
      dictGet env.kit.tools_enabled req.name = some true →
      dictGet env.tools_map req.name = some tr →
      dictGet env.servers_map tr.server_control_name = some true →
      env.backend tr.server_control_name tr.origName req.arguments =
        Except.error e →
      callToolHandler env req = errorResult e) := by
  refine ⟨?_, ?_, ?_, ?_, ?_, ?_, ?_, ?_⟩
  · intro e he
    simp [callToolHandler, he, errorResult]
  · intro h
    simp [callToolHandler, callToolBody, h]
  · intro h1 h2
    simp [callToolHandler, callToolBody, h1, h2]
  · intro h1 h2
    simp [callToolHandler, callToolBody, h1, h2]
  · intro h1 h2 h3
    simp [callToolHandler, callToolBody, h1, h2, h3]
  · intro tr h1 h2 h3 h4
    simp [callToolHandler, callToolBody, h1, h2, h3, h4]
  · intro tr h1 h2 h3 h4
    simp [callToolHandler, callToolBody, h1, h2, h3, h4]
  · intro tr e h1 h2 h3 h4 h5
    simp [callToolHandler, callToolBody, h1, h2, h3, h4, h5]

/-- A sample tool record for exercising the call handler. -/
def c1Tool : ToolRec :=
  { server_control_name := "s", origName := "t", description := "d" }

/-- A family of gateway states covering each failure path of
`_call_tool`. -/
def c1Env (kitOn : Bool) (toolFlag : Option Bool) (handle : Bool)
    (server : Option Bool) (callRes : Except String CallToolResultM) :
    GatewayEnv :=
  { kit :=
      { name := "kit"
        enabled := kitOn
        servers_enabled := [("s", true)]
        tools_enabled :=
          match toolFlag with
          | none => []
          | some fl => [("s-t", fl)]
        servers_tools_hierarchy_map := [("s", ["s-t"])]
        tools_servers_map := [("s-t", "s")] }
    tools_map := if handle then [("s-t", c1Tool)] else []
    servers_map :=
      match server with
      | none => []
      | some live => [("s", live)]
    backend := fun _ _ _ => callRes }

theorem c1_call_tool_error_boundary_witness :
    callToolHandler
        (c1Env false (some true) true (some true)
          (Except.ok { content := [], isError := false }))
        { name := "s-t", arguments := [] } =
      errorResult "Server kit is not enabled" ∧
    callToolHandler
        (c1Env true none true (some true)
          (Except.ok { content := [], isError := false }))
        { name := "s-t", arguments := [] } =
      errorResult (pyKeyError "s-t") ∧
    callToolHandler
        (c1Env true (some false) true (some true)
          (Except.ok { content := [], isError := false }))
        { name := "s-t", arguments := [] } =
      errorResult "Tool is not enabled" ∧
    callToolHandler
        (c1Env true (some true) false (some true)
          (Except.ok { content := [], isError := false }))
        { name := "s-t", arguments := [] } =
      errorResult (pyKeyError "s-t") ∧
    callToolHandler
        (c1Env true (some true) true none
          (Except.ok { content := [], isError := false }))
        { name := "s-t", arguments := [] } =
      errorResult (pyKeyError "s") ∧
    callToolHandler
        (c1Env true (some true) true (some false)
          (Except.ok { content := [], isError := false }))
        { name := "s-t", arguments := [] } =
      errorResult "Server session is not initialized" ∧
    callToolHandler
        (c1Env true (some true) true (some true) (Except.error "boom"))
        { name := "s-t", arguments := [] } =
      errorResult "boom" :=
  ⟨(c1_call_tool_error_boundary
      (c1Env false (some true) true (some true)
        (Except.ok { content := [], isError := false }))
      { name := "s-t", arguments := [] }).2.1 rfl,
    (c1_call_tool_error_boundary
      (c1Env true none true (some true)
        (Except.ok { content := [], isError := false }))
      { name := "s-t", arguments := [] }).2.2.1 rfl rfl,
    (c1_call_tool_error_boundary
      (c1Env true (some false) true (some true)
        (Except.ok { content := [], isError := false }))
      { name := "s-t", arguments := [] }).2.2.2.1 rfl rfl,
    (c1_call_tool_error_boundary
      (c1Env true (some true) false (some true)
        (Except.ok { content := [], isError := false }))
      { name := "s-t", arguments := [] }).2.2.2.2.1 rfl rfl rfl,
    (c1_call_tool_error_boundary
      (c1Env true (some true) true none
        (Except.ok { content := [], isError := false }))
      { name := "s-t", arguments := [] }).2.2.2.2.2.1 c1Tool rfl rfl rfl
      rfl,
    (c1_call_tool_error_boundary
      (c1Env true (some true) true (some false)
        (Except.ok { content := [], isError := false }))
      { name := "s-t", arguments := [] }).2.2.2.2.2.2.1 c1Tool rfl rfl rfl
      rfl,
    (c1_call_tool_error_boundary
      (c1Env true (some true) true (some true) (Except.error "boom"))
      { name := "s-t", arguments := [] }).2.2.2.2.2.2.2 c1Tool "boom" rfl
      rfl rfl rfl rfl⟩

/-- The C6 failing input: a disabled kit over one enabled backend with one
enabled tool. -/
def c6Kit : ServerKit :=
  { name := "kit"
    enabled := false
    servers_enabled := [("s", true)]
    tools_enabled := [("s-t", true)]
    servers_tools_hierarchy_map := [("s", ["s-t"])]
    tools_servers_map := [("s-t", "s")] }

/-- C6 counterexample: `list_enabled_tool_names` never consults the
kit-level flag, so on a disabled kit it still returns the backend/tool
filtered names rather than the empty sequence. -/
theorem c6_counterexample :
    c6Kit.enabled = false ∧
    ServerKit.list_enabled_tool_names c6Kit = Except.ok ["s-t"] ∧
    ServerKit.list_enabled_tool_names c6Kit ≠ Except.ok [] := by
  refine ⟨rfl, rfl, ?_⟩
  intro h
  rw [show ServerKit.list_enabled_tool_names c6Kit = Except.ok ["s-t"]
    from rfl] at h
  simp at h

/-- C6 (amended): the emptiness guard for a disabled kit lives in the
gateway's `_list_tools` handler, not in `list_enabled_tool_names`: the
catalog served for a disabled kit is empty regardless of the
backend/tool flags, while `list_enabled_tool_names` itself ignores the
kit flag. -/
theorem c6_disabled_kit_catalog_empty (env : GatewayEnv)
    (h : env.kit.enabled = false) : listToolsHandler env = Except.ok [] := by
  simp [listToolsHandler, h]

theorem c6_disabled_kit_catalog_empty_witness :
    listToolsHandler
        { kit := c6Kit
          tools_map :=
            [("s-t", { server_control_name := "s", origName := "t",
                        description := "d" })]
          servers_map := [("s", true)]
          backend := fun _ _ _ =>
            Except.ok { content := [], isError := false } } =
      Except.ok [] :=
  c6_disabled_kit_catalog_empty
    { kit := c6Kit
      tools_map :=
        [("s-t", { server_control_name := "s", origName := "t",
                    description := "d" })]
      servers_map := [("s", true)]
      backend := fun _ _ _ =>
        Except.ok { content := [], isError := false } }
    rfl

theorem listEnabledAux_congr (tsm : List (String × String))
    (sen1 sen2 : List (String × Bool)) (l : List (String × Bool))
    (h : ∀ s, dictGet sen1 s = dictGet sen2 s) :
    ServerKit.listEnabledAux tsm sen1 l =
      ServerKit.listEnabledAux tsm sen2 l := by
  induction l with
  | nil => rfl
  | cons p rest ih =>
      obtain ⟨t, en⟩ := p
      simp only [ServerKit.listEnabledAux]
      cases dictGet tsm t with
      | none => rfl
      | some s =>
          dsimp only
          rw [h s]
          cases dictGet sen2 s with
          | none => rfl
          | some sEn =>
              dsimp only
              by_cases hs : sEn
              · by_cases he : en <;> simp [hs, he, ih]
              · simp [hs, ih]

/-- C7: re-enabling a backend after disabling it (the flag was `True`
before the round trip) restores the policy exactly — the per-tool flags
are never touched, and `list_enabled_tool_names` returns its prior
value. -/
theorem c7_disable_enable_roundtrip (k : ServerKit) (s : String)
    (h : dictGet k.servers_enabled s = some true) :
    ((k.disable_server s).enable_server s).tools_enabled =
      k.tools_enabled ∧
    (k.disable_server s).tools_enabled = k.tools_enabled ∧
    ServerKit.list_enabled_tool_names
        ((k.disable_server s).enable_server s) =
      ServerKit.list_enabled_tool_names k := by
  refine ⟨rfl, rfl, ?_⟩
  unfold ServerKit.list_enabled_tool_names ServerKit.enable_server
    ServerKit.disable_server
  apply listEnabledAux_congr
  intro x
  rw [dictGet_dictSet, dictGet_dictSet]
  by_cases hx : s = x
  · subst hx
    simp [h]
  · simp [hx]

/-- The policy used to witness the C7 round trip. -/
def c7Kit : ServerKit :=
  { name := "kit"
    enabled := true
    servers_enabled := [("s", true)]
    tools_enabled := [("s-t", true), ("s-u", false)]
    servers_tools_hierarchy_map := [("s", ["s-t", "s-u"])]
    tools_servers_map := [("s-t", "s"), ("s-u", "s")] }

theorem c7_disable_enable_roundtrip_witness :
    ServerKit.list_enabled_tool_names
        ((c7Kit.disable_server "s").enable_server "s") =
      ServerKit.list_enabled_tool_names c7Kit :=
  (c7_disable_enable_roundtrip c7Kit "s" rfl).2.2

theorem listEnabledAux_set_unused (tsm : List (String × String))
    (sen : List (String × Bool)) (s : String) (v : Bool)
    (l : List (String × Bool))
    (h : ∀ p ∈ l, dictGet tsm p.1 ≠ some s) :
    ServerKit.listEnabledAux tsm (dictSet sen s v) l =
      ServerKit.listEnabledAux tsm sen l := by
  induction l with
  | nil => rfl
  | cons p rest ih =>
      obtain ⟨t, en⟩ := p
      have ht : dictGet tsm t ≠ some s := h (t, en) (List.mem_cons_self _ _)
      have hrest : ∀ p ∈ rest, dictGet tsm p.1 ≠ some s :=
        fun p hp => h p (List.mem_cons_of_mem _ hp)
      simp only [ServerKit.listEnabledAux]
      cases hg : dictGet tsm t with
      | none => rfl
      | some s0 =>
          dsimp only
          have hs0 : ¬ s = s0 := fun hcontra => ht (by rw [hg, hcontra])
          rw [dictGet_dictSet]
          simp only [if_neg hs0]
          cases dictGet sen s0 with
          | none => rfl
          | some sEn =>
              dsimp only
              by_cases hs : sEn
              · by_cases he : en <;> simp [hs, he, ih hrest]
              · simp [hs, ih hrest]

theorem dictSet_absent {V : Type} (d : List (String × V)) (k : String)
    (v : V) (h : dictGet d k = none) : dictSet d k v = d ++ [(k, v)] := by
  induction d with
  | nil => rfl
  | cons p rest ih =>
      obtain ⟨a, w⟩ := p
      simp only [dictGet] at h
      by_cases hak : a = k
      · simp [hak] at h
      · simp only [dictSet, if_neg hak, List.cons_append]
        rw [ih (by simpa [hak] using h)]

theorem listEnabledAux_append_unknown (tsm : List (String × String))
    (sen : List (String × Bool)) (t : String) (en : Bool)
    (l : List (String × Bool)) (hu : dictGet tsm t = none)
    (r : List String)
    (hok : ServerKit.listEnabledAux tsm sen l = Except.ok r) :
    ServerKit.listEnabledAux tsm sen (l ++ [(t, en)]) =
      Except.error (pyKeyError t) := by
  induction l generalizing r with
  | nil =>
      simp only [List.nil_append, ServerKit.listEnabledAux, hu]
  | cons p rest ih =>
      obtain ⟨t0, e0⟩ := p
      simp only [ServerKit.listEnabledAux, List.cons_append] at hok ⊢
      cases hg : dictGet tsm t0 with
      | none =>
          rw [hg] at hok
          exact absurd hok (by simp)
      | some s0 =>
          rw [hg] at hok
          dsimp only at hok ⊢
          cases hsg : dictGet sen s0 with
          | none =>
              rw [hsg] at hok
              exact absurd hok (by simp)
          | some sEn =>
              rw [hsg] at hok
              dsimp only at hok ⊢
              cases sEn with
              | false => exact ih r hok
              | true =>
                  cases e0 with
                  | false => exact ih r hok
                  | true =>
                      simp only [Bool.not_true] at hok ⊢
                      cases har : ServerKit.listEnabledAux tsm sen rest with
                      | error e =>
                          rw [har] at hok
                          exact absurd hok (by simp [Except.map])
                      | ok r0 =>
                          simp [ih r0 har, Except.map]

/-- C9 counterexample: the entry created by an enable-tool mutation for a
name unknown to the topology is not a no-op — `list_enabled_tool_names`
then raises a `KeyError` on the dangling `tools_servers_map` lookup rather
than returning normally with unchanged output. -/
theorem c9_counterexample :
    ServerKit.list_enabled_tool_names (ServerKit.new_server_kit "k") =
      Except.ok [] ∧
    ServerKit.list_enabled_tool_names
        ((ServerKit.new_server_kit "k").enable_tool "t") =
      Except.error (pyKeyError "t") :=
  ⟨rfl, rfl⟩

/-- C9 (amended): all four enable/disable mutations are idempotent and
themselves never fail; a backend mutation whose name no registered tool
maps to leaves `list_enabled_tool_names` unchanged; but a tool mutation
with a name unknown to the topology leaves a dangling entry on which
`list_enabled_tool_names` subsequently fails with a `KeyError` instead of
returning its prior output. -/
theorem c9_mutation_leniency (k : ServerKit) (s t : String) :
    ((k.enable_tool t).enable_tool t = k.enable_tool t ∧
      (k.disable_tool t).disable_tool t = k.disable_tool t ∧
      (k.enable_server s).enable_server s = k.enable_server s ∧
      (k.disable_server s).disable_server s = k.disable_server s) ∧
    ((∀ p ∈ k.tools_enabled, dictGet k.tools_servers_map p.1 ≠ some s) →
      ServerKit.list_enabled_tool_names (k.enable_server s) =
        ServerKit.list_enabled_tool_names k ∧
      ServerKit.list_enabled_tool_names (k.disable_server s) =
        ServerKit.list_enabled_tool_names k) ∧
    (∀ r, dictGet k.tools_servers_map t = none →
      dictGet k.tools_enabled t = none →
      ServerKit.list_enabled_tool_names k = Except.ok r →
      ServerKit.list_enabled_tool_names (k.enable_tool t) =
        Except.error (pyKeyError t) ∧
      ServerKit.list_enabled_tool_names (k.disable_tool t) =
        Except.error (pyKeyError t)) := by
  refine ⟨⟨?_, ?_, ?_, ?_⟩, ?_, ?_⟩
  · simp [ServerKit.enable_tool, dictSet_dictSet]
  · simp [ServerKit.disable_tool, dictSet_dictSet]
  · simp [ServerKit.enable_server, dictSet_dictSet]
  · simp [ServerKit.disable_server, dictSet_dictSet]
  · intro h
    constructor
    · exact listEnabledAux_set_unused k.tools_servers_map
        k.servers_enabled s true k.tools_enabled h
    · exact listEnabledAux_set_unused k.tools_servers_map
        k.servers_enabled s false k.tools_enabled h
  · intro r h1 h2 hok
    constructor
    · show ServerKit.listEnabledAux k.tools_servers_map k.servers_enabled
        (dictSet k.tools_enabled t true) = Except.error (pyKeyError t)
      rw [dictSet_absent k.tools_enabled t true h2]
      exact listEnabledAux_append_unknown k.tools_servers_map
        k.servers_enabled t true k.tools_enabled h1 r hok
    · show ServerKit.listEnabledAux k.tools_servers_map k.servers_enabled
        (dictSet k.tools_enabled t false) = Except.error (pyKeyError t)
      rw [dictSet_absent k.tools_enabled t false h2]
      exact listEnabledAux_append_unknown k.tools_servers_map
        k.servers_enabled t false k.tools_enabled h1 r hok

/-- The policy used to witness the C9 mutation behaviors. -/
def c9Kit : ServerKit :=
  { name := "kit"
    enabled := true
    servers_enabled := [("a", true)]
    tools_enabled := [("a-x", true)]
    servers_tools_hierarchy_map := [("a", ["a-x"])]
    tools_servers_map := [("a-x", "a")] }

theorem c9_mutation_leniency_witness :
    (c9Kit.enable_tool "z").enable_tool "z" = c9Kit.enable_tool "z" ∧
    ServerKit.list_enabled_tool_names (c9Kit.enable_server "b") =
      ServerKit.list_enabled_tool_names c9Kit ∧
    ServerKit.list_enabled_tool_names (c9Kit.enable_tool "z") =
      Except.error (pyKeyError "z") :=
  ⟨(c9_mutation_leniency c9Kit "b" "z").1.1,
    ((c9_mutation_leniency c9Kit "b" "z").2.1 (by decide)).1,
    ((c9_mutation_leniency c9Kit "b" "z").2.2 ["a-x"] rfl rfl rfl).1⟩

theorem dictGet_isSome_dictSet {V : Type} (m : List (String × V))
    (k x : String) (v : V) (h : (dictGet m x).isSome = true) :
    (dictGet (dictSet m k v) x).isSome = true := by
  rw [dictGet_dictSet]
  by_cases hk : k = x <;> simp [hk, h]

theorem foldl_dictSet_isSome (ctls : List String) (name : String)
    (m : List (String × String)) (x : String)
    (hx : x ∈ ctls ∨ (dictGet m x).isSome = true) :
    (dictGet (ctls.foldl (fun m2 ct => dictSet m2 ct name) m) x).isSome =
      true := by
  induction ctls generalizing m with
  | nil =>
      rcases hx with h | h
      · exact absurd h (List.not_mem_nil x)
      · exact h
  | cons c rest ih =>
      simp only [List.foldl_cons]
      apply ih
      rcases hx with h | h
      · rcases List.mem_cons.mp h with h1 | h1
        · subst h1
          right
          rw [dictGet_dictSet]
          simp
        · left
          exact h1
      · right
        exact dictGet_isSome_dictSet m c x name h

theorem register_preserves_tool (reg : Registry) (b : BackendBehavior)
    (x : String) (h : (dictGet reg.tools_map x).isSome = true) :
    (dictGet (register_downstream_mcp_server reg b).1.tools_map x).isSome =
      true := by
  unfold register_downstream_mcp_server
  by_cases hc : b.connectOk
  · simp only [hc, Bool.not_true, Bool.false_eq_true, if_false]
    cases b.toolsResult with
    | error e => exact h
    | ok ts =>
        dsimp only
        exact foldl_dictSet_isSome (ts.map (fun t => controlName b.name t))
          b.name reg.tools_map x (Or.inr h)
  · simp only [Bool.not_eq_true] at hc
    simp only [hc, Bool.not_false, if_true]
    exact h

theorem register_publishes (reg : Registry) (b : BackendBehavior)
    (ts : List String) (h1 : b.connectOk = true)
    (h2 : b.toolsResult = Except.ok ts) :
    (register_downstream_mcp_server reg b).2 = none ∧
    ∀ t ∈ ts,
      (dictGet (register_downstream_mcp_server reg b).1.tools_map
        (controlName b.name t)).isSome = true := by
  unfold register_downstream_mcp_server
  simp only [h1, h2, Bool.not_true, Bool.false_eq_true, if_false]
  constructor
  · trivial
  · intro t ht
    apply foldl_dictSet_isSome
    left
    exact List.mem_map_of_mem _ ht

theorem initAll_preserves_tool (cs : List BackendBehavior)
    (reg : Registry) (x : String)
    (h : (dictGet reg.tools_map x).isSome = true) :
    (dictGet (initAll reg cs).1.tools_map x).isSome = true := by
  induction cs generalizing reg with
  | nil => exact h
  | cons b rest ih =>
      have hpres := register_preserves_tool reg b x h
      simp only [initAll]
      cases hr : register_downstream_mcp_server reg b with
      | mk reg1 err =>
          rw [hr] at hpres
          cases err with
          | none => exact ih reg1 hpres
          | some e => exact hpres

/-- A backend config whose registration would succeed in isolation:
connecting works and tool listing returns a catalog. -/
def behaviorOk (b : BackendBehavior) : Prop :=
  b.connectOk = true ∧ ∃ ts, b.toolsResult = Except.ok ts

/-- The C3 counterexample configs: backend `A` is unreachable, backend `B`
would register fine with one tool `t`. -/
def c3BehaviorA : BackendBehavior :=
  { name := "A", connectOk := false, toolsResult := Except.ok ["t"] }

def c3BehaviorB : BackendBehavior :=
  { name := "B", connectOk := true, toolsResult := Except.ok ["t"] }

/-- C3 counterexample: with configs `[A (unreachable), B (fine)]`, the
registration loop has no exception handler, so `A`'s failure aborts
`initialize` — `B` is never registered and its tool `B-t` is absent,
contradicting the claim that other backends still complete. -/
theorem c3_counterexample :
    (initAll emptyRegistry [c3BehaviorA, c3BehaviorB]).2 =
      some "ConnectionError" ∧
    dictGet (initAll emptyRegistry [c3BehaviorA, c3BehaviorB]).1.tools_map
      (controlName "B" "t") = none ∧
    dictGet (initAll emptyRegistry [c3BehaviorA, c3BehaviorB]).1.servers_map
      "B" = none :=
  ⟨rfl, rfl, rfl⟩

/-- C3 (amended): a backend registration failure aborts the
initialization loop: every backend strictly before the first failing
config is fully registered (its tools are published in the tools map),
the connection error propagates to the caller, and the failing config and
every config after it contribute nothing — the registry is left exactly
as after processing the prefix. -/
theorem c3_initialization_aborts (reg : Registry)
    (pre : List BackendBehavior) (b : BackendBehavior)
    (post : List BackendBehavior) (hpre : ∀ x ∈ pre, behaviorOk x)
    (hb : b.connectOk = false) :
    (initAll reg pre).2 = none ∧
    initAll reg (pre ++ b :: post) =
      ((initAll reg pre).1, some "ConnectionError") ∧
    ∀ x ∈ pre, ∀ ts, x.toolsResult = Except.ok ts →
      ∀ t ∈ ts,
        (dictGet (initAll reg pre).1.tools_map
          (controlName x.name t)).isSome = true := by
  induction pre generalizing reg with
  | nil =>
      refine ⟨rfl, ?_, ?_⟩
      · simp only [List.nil_append, initAll]
        unfold register_downstream_mcp_server
        simp only [hb, Bool.not_false, if_true]
      · intro x hx
        exact absurd hx (List.not_mem_nil x)
  | cons c rest ih =>
      obtain ⟨hc1, ts0, hc2⟩ := hpre c (List.mem_cons_self _ _)
      have hrest : ∀ x ∈ rest, behaviorOk x :=
        fun x hx => hpre x (List.mem_cons_of_mem _ hx)
      have hreg := register_publishes reg c ts0 hc1 hc2
      obtain ⟨ihA, ihB, ihC⟩ := ih reg hrest
      cases hr : register_downstream_mcp_server reg c with
      | mk reg1 err =>
          rw [hr] at hreg
          obtain ⟨herr, hpub⟩ := hreg
          subst herr
          obtain ⟨jhA, jhB, jhC⟩ := ih reg1 hrest
          have hred : initAll reg (c :: rest) = initAll reg1 rest := by
            simp only [initAll, hr]
          refine ⟨?_, ?_, ?_⟩
          · rw [hred]
            exact jhA
          · have : initAll reg ((c :: rest) ++ b :: post) =
                initAll reg1 (rest ++ b :: post) := by
              simp only [List.cons_append, initAll, hr]
              rfl
            rw [this, hred]
            exact jhB
          · intro x hx ts hts t ht
            rw [hred]
            rcases List.mem_cons.mp hx with h1 | h1
            · subst h1
              have hts0 : ts = ts0 := by
                rw [hts] at hc2
                exact Except.ok.inj hc2
              subst hts0
              exact initAll_preserves_tool rest reg1 (controlName x.name t)
                (hpub t ht)
            · exact jhC x h1 ts hts t ht

theorem c3_initialization_aborts_witness :
    (initAll emptyRegistry [c3BehaviorB]).2 = none ∧
    initAll emptyRegistry [c3BehaviorB, c3BehaviorA] =
      ((initAll emptyRegistry [c3BehaviorB]).1, some "ConnectionError") ∧
    (dictGet (initAll emptyRegistry [c3BehaviorB]).1.tools_map
      (controlName "B" "t")).isSome = true :=
  ⟨(c3_initialization_aborts emptyRegistry [c3BehaviorB] c3BehaviorA []
      (fun x hx => by
        rcases List.mem_cons.mp hx with h | h
        · subst h
          exact ⟨rfl, ["t"], rfl⟩
        · exact absurd h (List.not_mem_nil x))
      rfl).1,
    (c3_initialization_aborts emptyRegistry [c3BehaviorB] c3BehaviorA []
      (fun x hx => by
        rcases List.mem_cons.mp hx with h | h
        · subst h
          exact ⟨rfl, ["t"], rfl⟩
        · exact absurd h (List.not_mem_nil x))
      rfl).2.1,
    (c3_initialization_aborts emptyRegistry [c3BehaviorB] c3BehaviorA []
      (fun x hx => by
        rcases List.mem_cons.mp hx with h | h
        · subst h
          exact ⟨rfl, ["t"], rfl⟩
        · exact absurd h (List.not_mem_nil x))
      rfl).2.2 c3BehaviorB (List.mem_cons_self _ _) ["t"] rfl "t"
      (List.mem_cons_self _ _)⟩

end MCPGateway
